import Mathlib

/-!
Verification of `hack/upload-qiniu.py` (tikv/tikv-operator).

The script reads three environment variables, asserts they are all truthy,
and — when run as a program — takes two positional arguments, obtains an
upload token from the Qiniu SDK, uploads the file with `put_file`, asserts
the returned key and hash, and finally prints a public URL.

We give a shallow embedding: the external Qiniu SDK (`Auth.upload_token`,
`put_file`, `etag`) is an oracle structure `Sdk`; a run of the script is a
pure function producing the list of observable events (prints, network
calls, the local `etag` computation) together with the Python-level outcome
(`none` = clean exit, `some e` = the uncaught exception `e` that terminates
the process with a nonzero status).
-/

namespace UploadQiniu

/-- Python exceptions that the script can die with.  Nothing is ever caught,
so an exception is the final outcome of a run. -/
inductive PyError where
  /-- a failed `assert` statement -/
  | assertionError
  /-- `sys.argv[i]` out of range -/
  | indexError
  /-- subscripting `None` (when `put_file` returns `ret = None`) -/
  | typeError
  /-- division by zero in `progress_handler` -/
  | zeroDivisionError
  deriving DecidableEq, Repr

/-- the `ret` dictionary returned by `qiniu.put_file`, restricted to the two
fields the script reads: `ret['key']` and `ret['hash']`. -/
structure UploadRet where
  key : String
  hash : String
  deriving DecidableEq, Repr

/-- rendering of the `ret` value used by the diagnostic `print("ret", ret)`;
an abbreviation of the Python dict repr (`None` when the upload failed). -/
def showRet : Option UploadRet → String
  | none => "None"
  | some r => "\x7b'key': '" ++ r.key ++ "', 'hash': '" ++ r.hash ++ "'\x7d"

/-- the external Qiniu SDK, as an oracle.  `uploadToken ak sk bucket key ttl`
models `Auth(ak, sk).upload_token(bucket, key, ttl)`; `putFile tok key file`
models `put_file(tok, key, file)` returning the pair `(ret, info)` with
`ret = none` on a failed upload; `etag file` models the SDK's local hash
of the file's bytes. -/
structure Sdk where
  uploadToken : String → String → String → String → Nat → String
  putFile : String → String → String → Option UploadRet × String
  etag : String → String

/-- observable events of a run: each `print` statement of the script is a
distinct constructor carrying its arguments, the two SDK network calls are
recorded with the exact arguments passed, and the local `etag` computation
is recorded when (and only when) line 47 evaluates it. -/
inductive Event where
  /-- `print(local_file, remote_name, ttl)` (line 33) -/
  | printArgs (local_file remote_name : String) (ttl : Nat)
  /-- `print("ret", ret)` (line 39) -/
  | printRet (ret : Option UploadRet)
  /-- `print("info", info)` (line 40) -/
  | printInfo (info : String)
  /-- `print("https://charts.pingcap.org/{}".format(remote_name))` (line 54) -/
  | printUrl (remote_name : String)
  /-- the network call `q.upload_token(BUCKET_NAME, remote_name, ttl)` (line 36) -/
  | netUploadToken (bucket key : String) (ttl : Nat)
  /-- the network call `put_file(token, remote_name, local_file)` (line 38) -/
  | netPutFile (token key local_file : String)
  /-- the local hash computation `etag(local_file)` (line 47) -/
  | etagCall (file : String)
  deriving DecidableEq, Repr

/-- the line a print event writes to stdout (`none` for non-print events).
Python `print` with several arguments joins them with single spaces. -/
def render : Event → Option String
  | Event.printArgs lf rn ttl => some (lf ++ " " ++ rn ++ " " ++ toString ttl)
  | Event.printRet r => some ("ret " ++ showRet r)
  | Event.printInfo i => some ("info " ++ i)
  | Event.printUrl rn => some ("https://charts.pingcap.org/" ++ rn)
  | _ => none

/-- the stdout of a run: the rendered print events, in order. -/
def printedLines (tr : List Event) : List String :=
  tr.filterMap render

/-- a network call is a token issuance or an upload. -/
def isNetworkCall : Event → Bool
  | Event.netUploadToken _ _ _ => true
  | Event.netPutFile _ _ _ => true
  | _ => false

/-- the number of network calls performed during a run. -/
def networkCalls (tr : List Event) : Nat :=
  (tr.filter isNetworkCall).length

/-- recognizes the token-issuance call. -/
def isTokenReq : Event → Bool
  | Event.netUploadToken _ _ _ => true
  | _ => false

/-- Python truthiness of an environment variable: `os.getenv` returns
`None` when unset, and both `None` and the empty string are falsy in the
module-level `assert(ACCESS_KEY and SECRET_KEY and BUCKET_NAME)`. -/
def truthy : Option String → Bool
  | none => false
  | some s => s != ""

/-- the `upload(local_file, remote_name, ttl=3600)` function (lines 32-47).
Events appear in source order: the diagnostic print of the arguments, the
token request, the `put_file` call, the two diagnostic prints, and — only
if the key assertion on lines 42-45 passed — the `etag` computation for the
hash assertion on line 47.  The `is_py2` / `is_py3` branch performs the same
byte-for-byte comparison in both interpreters (in py2 the returned key is
encoded to UTF-8 bytes first, which is what a Lean `String` already is), so
it is modelled as a single equality test.  When `put_file` fails, `ret` is
`None` and `ret['key']` raises `TypeError`. -/
def upload (sdk : Sdk) (ak sk bucket local_file remote_name : String)
    (ttl : Nat) : List Event × Option PyError :=
  let token := sdk.uploadToken ak sk bucket remote_name ttl
  let res := sdk.putFile token remote_name local_file
  let tr : List Event :=
    [Event.printArgs local_file remote_name ttl,
     Event.netUploadToken bucket remote_name ttl,
     Event.netPutFile token remote_name local_file,
     Event.printRet res.1,
     Event.printInfo res.2]
  match res.1 with
  | none => (tr, some PyError.typeError)
  | some ret =>
      if ret.key = remote_name then
        if ret.hash = sdk.etag local_file then
          (tr ++ [Event.etagCall local_file], none)
        else
          (tr ++ [Event.etagCall local_file], some PyError.assertionError)
      else (tr, some PyError.assertionError)

/-- a full run of the script: the module-level credential assertion on
line 27 runs first (before any function call); then, under
`if __name__ == "__main__"`, `sys.argv[1]` and `sys.argv[2]` are read
(raising `IndexError` when fewer than two positional arguments were given),
`upload` is called with the default `ttl = 3600`, and on its clean return
the public URL is printed.  `argv` is the full `sys.argv`, program name
included. -/
def runScript (sdk : Sdk) (accessKey secretKey bucketName : Option String)
    (argv : List String) : List Event × Option PyError :=
  if truthy accessKey && truthy secretKey && truthy bucketName then
    match argv with
    | _ :: lf :: rn :: _ =>
        match upload sdk (accessKey.getD "") (secretKey.getD "")
            (bucketName.getD "") lf rn 3600 with
        | (tr, none) => (tr ++ [Event.printUrl rn], none)
        | (tr, some e) => (tr, some e)
    | _ => ([], some PyError.indexError)
  else ([], some PyError.assertionError)

/-- the process exit status determined by the outcome: 0 on a clean exit,
nonzero (CPython uses 1 for an uncaught exception) otherwise. -/
def exitCode : List Event × Option PyError → Nat
  | (_, none) => 0
  | (_, some _) => 1

/-- rounding of a rational to the nearest integer, ties to even — the
rounding CPython applies when formatting a float with `"\x7b:.2f\x7d"`. -/
def roundHalfEven (q : Rat) : Int :=
  let f : Int := ⌊q⌋
  let frac : Rat := q - (f : Rat)
  if frac < 1 / 2 then f
  else if 1 / 2 < frac then f + 1
  else if f % 2 = 0 then f else f + 1

/-- fixed-point rendering of a nonnegative rational with exactly two
decimal places, modelling Python's `"\x7b:.2f\x7d".format(x)`.  Python formats
the IEEE-754 double nearest to the exact quotient; we compute with exact
rationals, which agrees except when that double falls on the far side of a
two-decimal midpoint. -/
def fmt2 (q : Rat) : String :=
  let n : Nat := (roundHalfEven (q * 100)).toNat
  toString (n / 100) ++ "." ++
    String.mk [Nat.digitChar (n / 10 % 10), Nat.digitChar (n % 10)]

/-- the `progress_handler(progress, total)` helper (lines 29-30): it prints
one line `"\x7b\x7d/\x7b\x7d \x7b:.2f\x7d".format(progress, total, progress/total*100)`.
Python's `/` on integers is true division, so `total = 0` raises
`ZeroDivisionError` before anything is printed.  The function is defined in
the script but never passed to `put_file`, so it is dead code in every run. -/
def progress_handler (progress total : Nat) : Except PyError String :=
  if total = 0 then Except.error PyError.zeroDivisionError
  else
    Except.ok (toString progress ++ "/" ++ toString total ++ " " ++
      fmt2 (((progress : Rat) / (total : Rat)) * 100))

/-- a stub SDK whose upload succeeds and echoes consistent key and hash,
used to instantiate the universally quantified theorems at concrete
inputs. -/
def sdkStub : Sdk where
  uploadToken := fun _ _ _ key ttl => "token:" ++ key ++ ":" ++ toString ttl
  putFile := fun _ key file => (some ⟨key, "etag:" ++ file⟩, "ok")
  etag := fun file => "etag:" ++ file

/-- a stub SDK whose upload result carries a key different from the
requested one. -/
def sdkBadKey : Sdk where
  uploadToken := fun _ _ _ key ttl => "token:" ++ key ++ ":" ++ toString ttl
  putFile := fun _ _ file => (some ⟨"other-key", "etag:" ++ file⟩, "ok")
  etag := fun file => "etag:" ++ file

/-- a stub SDK whose upload result carries a hash different from the local
etag of the file. -/
def sdkBadHash : Sdk where
  uploadToken := fun _ _ _ key ttl => "token:" ++ key ++ ":" ++ toString ttl
  putFile := fun _ key _ => (some ⟨key, "corrupt"⟩, "ok")
  etag := fun file => "etag:" ++ file

/-! ### Helper lemmas characterizing `upload` by cases on the SDK response -/

/-- when `put_file` fails (`ret = None`), `upload` dies with `TypeError` at
`ret['key']`, after the three diagnostic prints and both network calls. -/
lemma upload_none_eq (sdk : Sdk) (ak sk bucket lf rn : String) (ttl : Nat)
    (hput : (sdk.putFile (sdk.uploadToken ak sk bucket rn ttl) rn lf).1 = none) :
    upload sdk ak sk bucket lf rn ttl =
      ([Event.printArgs lf rn ttl,
        Event.netUploadToken bucket rn ttl,
        Event.netPutFile (sdk.uploadToken ak sk bucket rn ttl) rn lf,
        Event.printRet none,
        Event.printInfo (sdk.putFile (sdk.uploadToken ak sk bucket rn ttl) rn lf).2],
       some PyError.typeError) := by
  unfold upload
  simp only [hput]

/-- when the returned key differs from `remote_name`, the assertion on
lines 42-45 fails and the `etag` computation is never reached. -/
lemma upload_badkey_eq (sdk : Sdk) (ak sk bucket lf rn : String) (ttl : Nat)
    (r : UploadRet)
    (hput : (sdk.putFile (sdk.uploadToken ak sk bucket rn ttl) rn lf).1 = some r)
    (hkey : ¬ r.key = rn) :
    upload sdk ak sk bucket lf rn ttl =
      ([Event.printArgs lf rn ttl,
        Event.netUploadToken bucket rn ttl,
        Event.netPutFile (sdk.uploadToken ak sk bucket rn ttl) rn lf,
        Event.printRet (some r),
        Event.printInfo (sdk.putFile (sdk.uploadToken ak sk bucket rn ttl) rn lf).2],
       some PyError.assertionError) := by
  unfold upload
  simp only [hput]
  simp [hkey]

/-- when the key matches but the returned hash differs from the local etag,
the assertion on line 47 fails, after the `etag` computation. -/
lemma upload_badhash_eq (sdk : Sdk) (ak sk bucket lf rn : String) (ttl : Nat)
    (r : UploadRet)
    (hput : (sdk.putFile (sdk.uploadToken ak sk bucket rn ttl) rn lf).1 = some r)
    (hkey : r.key = rn) (hhash : ¬ r.hash = sdk.etag lf) :
    upload sdk ak sk bucket lf rn ttl =
      ([Event.printArgs lf rn ttl,
        Event.netUploadToken bucket rn ttl,
        Event.netPutFile (sdk.uploadToken ak sk bucket rn ttl) rn lf,
        Event.printRet (some r),
        Event.printInfo (sdk.putFile (sdk.uploadToken ak sk bucket rn ttl) rn lf).2]
        ++ [Event.etagCall lf],
       some PyError.assertionError) := by
  unfold upload
  simp only [hput]
  simp [hkey, hhash]

/-- when both assertions pass, `upload` returns cleanly. -/
lemma upload_ok_eq (sdk : Sdk) (ak sk bucket lf rn : String) (ttl : Nat)
    (r : UploadRet)
    (hput : (sdk.putFile (sdk.uploadToken ak sk bucket rn ttl) rn lf).1 = some r)
    (hkey : r.key = rn) (hhash : r.hash = sdk.etag lf) :
    upload sdk ak sk bucket lf rn ttl =
      ([Event.printArgs lf rn ttl,
        Event.netUploadToken bucket rn ttl,
        Event.netPutFile (sdk.uploadToken ak sk bucket rn ttl) rn lf,
        Event.printRet (some r),
        Event.printInfo (sdk.putFile (sdk.uploadToken ak sk bucket rn ttl) rn lf).2]
        ++ [Event.etagCall lf],
       none) := by
  unfold upload
  simp only [hput]
  simp [hkey, hhash]

/-- `upload` exits cleanly exactly when `put_file` returned a record whose
key is the requested one and whose hash is the local etag. -/
lemma upload_ok_iff (sdk : Sdk) (ak sk bucket lf rn : String) (ttl : Nat) :
    (upload sdk ak sk bucket lf rn ttl).2 = none ↔
      ∃ r, (sdk.putFile (sdk.uploadToken ak sk bucket rn ttl) rn lf).1 = some r
        ∧ r.key = rn ∧ r.hash = sdk.etag lf := by
  constructor
  · intro h
    rcases hput : (sdk.putFile (sdk.uploadToken ak sk bucket rn ttl) rn lf).1
        with _ | r
    · rw [upload_none_eq sdk ak sk bucket lf rn ttl hput] at h
      simp at h
    · by_cases hkey : r.key = rn
      · by_cases hhash : r.hash = sdk.etag lf
        · exact ⟨r, rfl, hkey, hhash⟩
        · rw [upload_badhash_eq sdk ak sk bucket lf rn ttl r hput hkey hhash] at h
          simp at h
      · rw [upload_badkey_eq sdk ak sk bucket lf rn ttl r hput hkey] at h
        simp at h
  · rintro ⟨r, hput, hkey, hhash⟩
    rw [upload_ok_eq sdk ak sk bucket lf rn ttl r hput hkey hhash]

/-- the `upload` function itself never prints the public URL: that print
statement lives only in the `__main__` block. -/
lemma upload_no_printUrl (sdk : Sdk) (ak sk bucket lf rn : String) (ttl : Nat)
    (u : String) : Event.printUrl u ∉ (upload sdk ak sk bucket lf rn ttl).1 := by
  rcases hput : (sdk.putFile (sdk.uploadToken ak sk bucket rn ttl) rn lf).1
      with _ | r
  · rw [upload_none_eq sdk ak sk bucket lf rn ttl hput]
    simp
  · by_cases hkey : r.key = rn
    · by_cases hhash : r.hash = sdk.etag lf
      · rw [upload_ok_eq sdk ak sk bucket lf rn ttl r hput hkey hhash]
        simp
      · rw [upload_badhash_eq sdk ak sk bucket lf rn ttl r hput hkey hhash]
        simp
    · rw [upload_badkey_eq sdk ak sk bucket lf rn ttl r hput hkey]
      simp

/-- every run of `upload` issues exactly one token request, carrying exactly
the bucket, the destination key and the ttl. -/
lemma upload_token_filter (sdk : Sdk) (ak sk bucket lf rn : String) (ttl : Nat) :
    (upload sdk ak sk bucket lf rn ttl).1.filter isTokenReq
      = [Event.netUploadToken bucket rn ttl] := by
  rcases hput : (sdk.putFile (sdk.uploadToken ak sk bucket rn ttl) rn lf).1
      with _ | r
  · rw [upload_none_eq sdk ak sk bucket lf rn ttl hput]
    simp [isTokenReq]
  · by_cases hkey : r.key = rn
    · by_cases hhash : r.hash = sdk.etag lf
      · rw [upload_ok_eq sdk ak sk bucket lf rn ttl r hput hkey hhash]
        simp [isTokenReq]
      · rw [upload_badhash_eq sdk ak sk bucket lf rn ttl r hput hkey hhash]
        simp [isTokenReq]
    · rw [upload_badkey_eq sdk ak sk bucket lf rn ttl r hput hkey]
      simp [isTokenReq]

/-- unfolding of `runScript` when the credentials are all truthy and at
least two positional arguments were passed. -/
lemma runScript_cons_eq (sdk : Sdk) (a s b : Option String)
    (p lf rn : String) (rest : List String)
    (h : (truthy a && truthy s && truthy b) = true) :
    runScript sdk a s b (p :: lf :: rn :: rest) =
      match upload sdk (a.getD "") (s.getD "") (b.getD "") lf rn 3600 with
      | (tr, none) => (tr ++ [Event.printUrl rn], none)
      | (tr, some e) => (tr, some e) := by
  unfold runScript
  rw [h]
  simp

/-! ### Claim theorems -/

/-- C1: for every completed call to `upload(local_file, remote_name, ttl)`,
the key returned in the upload result equals `remote_name` by strict
byte-for-byte string equality (Lean `String` equality is equality of the
UTF-8 byte sequences, and no normalization is applied anywhere); and if the
returned key differs, the call fails with `AssertionError` and does not
report success. -/
theorem upload_key_postcondition (sdk : Sdk) (ak sk bucket lf rn : String)
    (ttl : Nat) :
    ((upload sdk ak sk bucket lf rn ttl).2 = none →
      ∃ r, (sdk.putFile (sdk.uploadToken ak sk bucket rn ttl) rn lf).1 = some r
        ∧ r.key = rn)
    ∧ (∀ r, (sdk.putFile (sdk.uploadToken ak sk bucket rn ttl) rn lf).1 = some r →
        r.key ≠ rn →
        (upload sdk ak sk bucket lf rn ttl).2 = some PyError.assertionError) := by
  constructor
  · intro h
    rcases (upload_ok_iff sdk ak sk bucket lf rn ttl).1 h with ⟨r, hput, hkey, _⟩
    exact ⟨r, hput, hkey⟩
  · intro r hput hkey
    rw [upload_badkey_eq sdk ak sk bucket lf rn ttl r hput hkey]

/-- witness for C1: with a well-behaved SDK stub the clean exit yields the
requested key, and with a stub returning a different key the call dies with
`AssertionError`. -/
theorem upload_key_postcondition_witness :
    (∃ r, (sdkStub.putFile (sdkStub.uploadToken "ak" "sk" "bkt" "obj" 3600)
        "obj" "file").1 = some r ∧ r.key = "obj")
    ∧ (upload sdkBadKey "ak" "sk" "bkt" "file" "obj" 3600).2
        = some PyError.assertionError :=
  ⟨(upload_key_postcondition sdkStub "ak" "sk" "bkt" "file" "obj" 3600).1
      (by decide),
   (upload_key_postcondition sdkBadKey "ak" "sk" "bkt" "file" "obj" 3600).2
      ⟨"other-key", "etag:file"⟩ (by decide) (by decide)⟩

/-- C2: whenever at least one of the three credential environment variables
is unset or empty, the run terminates at the module-level assertion with a
fatal configuration error, before any network call: the trace is empty, so
the number of network calls performed is zero. -/
theorem missing_credentials_no_network (sdk : Sdk) (a s b : Option String)
    (argv : List String)
    (h : (truthy a && truthy s && truthy b) = false) :
    runScript sdk a s b argv = ([], some PyError.assertionError)
    ∧ networkCalls (runScript sdk a s b argv).1 = 0 := by
  have hrun : runScript sdk a s b argv = ([], some PyError.assertionError) := by
    unfold runScript
    rw [h]
    simp
  exact ⟨hrun, by rw [hrun]; rfl⟩

/-- witness for C2: with the access key unset the run exits at the
assertion and the trace carries zero network calls. -/
theorem missing_credentials_no_network_witness :
    runScript sdkStub none (some "sk") (some "bkt") ["u", "f", "r"]
      = ([], some PyError.assertionError)
    ∧ networkCalls (runScript sdkStub none (some "sk") (some "bkt")
        ["u", "f", "r"]).1 = 0 :=
  missing_credentials_no_network sdkStub none (some "sk") (some "bkt")
    ["u", "f", "r"] (by decide)

/-- C3: for every completed call to `upload`, the hash in the upload result
equals the hash the SDK computes locally over `local_file` (`etag`); and if
the two differ the call fails with `AssertionError` and does not report
success. -/
theorem upload_hash_postcondition (sdk : Sdk) (ak sk bucket lf rn : String)
    (ttl : Nat) :
    ((upload sdk ak sk bucket lf rn ttl).2 = none →
      ∃ r, (sdk.putFile (sdk.uploadToken ak sk bucket rn ttl) rn lf).1 = some r
        ∧ r.hash = sdk.etag lf)
    ∧ (∀ r, (sdk.putFile (sdk.uploadToken ak sk bucket rn ttl) rn lf).1 = some r →
        r.hash ≠ sdk.etag lf →
        (upload sdk ak sk bucket lf rn ttl).2 = some PyError.assertionError) := by
  constructor
  · intro h
    rcases (upload_ok_iff sdk ak sk bucket lf rn ttl).1 h with ⟨r, hput, _, hhash⟩
    exact ⟨r, hput, hhash⟩
  · intro r hput hhash
    by_cases hkey : r.key = rn
    · rw [upload_badhash_eq sdk ak sk bucket lf rn ttl r hput hkey hhash]
    · rw [upload_badkey_eq sdk ak sk bucket lf rn ttl r hput hkey]

/-- witness for C3: with a well-behaved SDK stub the clean exit yields the
locally computed hash, and with a stub returning a corrupt hash the call
dies with `AssertionError`. -/
theorem upload_hash_postcondition_witness :
    (∃ r, (sdkStub.putFile (sdkStub.uploadToken "ak" "sk" "bkt" "obj" 3600)
        "obj" "file").1 = some r ∧ r.hash = sdkStub.etag "file")
    ∧ (upload sdkBadHash "ak" "sk" "bkt" "file" "obj" 3600).2
        = some PyError.assertionError :=
  ⟨(upload_hash_postcondition sdkStub "ak" "sk" "bkt" "file" "obj" 3600).1
      (by decide),
   (upload_hash_postcondition sdkBadHash "ak" "sk" "bkt" "file" "obj" 3600).2
      ⟨"obj", "corrupt"⟩ (by decide) (by decide)⟩

/-- C4: every invocation of `upload` issues the token request with exactly
the three parameters `(bucket, remote_name, ttl)`, and a run entered
through the CLI entry point issues it with the fixed default `ttl = 3600`,
since the command line does not expose `ttl`. -/
theorem token_request_parameters :
    (∀ (sdk : Sdk) (ak sk bucket lf rn : String) (ttl : Nat),
      (upload sdk ak sk bucket lf rn ttl).1.filter isTokenReq
        = [Event.netUploadToken bucket rn ttl])
    ∧ ∀ (sdk : Sdk) (a s b : Option String) (p lf rn : String)
        (rest : List String),
        (truthy a && truthy s && truthy b) = true →
        (runScript sdk a s b (p :: lf :: rn :: rest)).1.filter isTokenReq
          = [Event.netUploadToken (b.getD "") rn 3600] := by
  constructor
  · exact upload_token_filter
  · intro sdk a s b p lf rn rest h
    rw [runScript_cons_eq sdk a s b p lf rn rest h]
    rcases hu : upload sdk (a.getD "") (s.getD "") (b.getD "") lf rn 3600
        with ⟨tr, err⟩
    have htr : tr.filter isTokenReq = [Event.netUploadToken (b.getD "") rn 3600] := by
      have := upload_token_filter sdk (a.getD "") (s.getD "") (b.getD "") lf rn 3600
      rw [hu] at this
      exact this
    cases err with
    | none => simp [List.filter_append, htr, isTokenReq]
    | some e => simpa using htr

/-- witness for C4: a concrete CLI run issues exactly one token request,
for the configured bucket, the requested key and ttl 3600. -/
theorem token_request_parameters_witness :
    (runScript sdkStub (some "ak") (some "sk") (some "bkt")
        ["u", "f", "r"]).1.filter isTokenReq
      = [Event.netUploadToken "bkt" "r" 3600] :=
  token_request_parameters.2 sdkStub (some "ak") (some "sk") (some "bkt")
    "u" "f" "r" [] (by decide)

/-- C5: on every successful CLI run with positional arguments
`(local_file, remote_name)`, the final printed line is exactly
`"https://charts.pingcap.org/" ++ remote_name`. -/
theorem success_prints_url (sdk : Sdk) (a s b : Option String)
    (p lf rn : String) (rest : List String)
    (hcred : (truthy a && truthy s && truthy b) = true)
    (hok : (runScript sdk a s b (p :: lf :: rn :: rest)).2 = none) :
    (printedLines (runScript sdk a s b (p :: lf :: rn :: rest)).1).getLast?
      = some ("https://charts.pingcap.org/" ++ rn) := by
  rw [runScript_cons_eq sdk a s b p lf rn rest hcred] at hok ⊢
  rcases hu : upload sdk (a.getD "") (s.getD "") (b.getD "") lf rn 3600
      with ⟨tr, err⟩
  cases err with
  | none =>
      show (printedLines (tr ++ [Event.printUrl rn])).getLast? = _
      rw [printedLines, List.filterMap_append]
      have : List.filterMap render [Event.printUrl rn]
          = ["https://charts.pingcap.org/" ++ rn] := rfl
      rw [this]
      exact List.getLast?_concat _
  | some e =>
      rw [hu] at hok
      exact (Option.some_ne_none e hok).elim

/-- witness for C5: the concrete run from the spec prints exactly
`https://charts.pingcap.org/videos/demo.mp4` as its final line. -/
theorem success_prints_url_witness :
    (printedLines (runScript sdkStub (some "ak") (some "sk") (some "bkt")
        ["upload-qiniu.py", "video.mp4", "videos/demo.mp4"]).1).getLast?
      = some "https://charts.pingcap.org/videos/demo.mp4" := by
  have h := success_prints_url sdkStub (some "ak") (some "sk") (some "bkt")
      "upload-qiniu.py" "video.mp4" "videos/demo.mp4" [] (by decide) (by decide)
  exact h

/-- C6: there is no partial-success state.  A run that exits cleanly passed
both postcondition checks and ends with the URL print as its very last
event; a run that terminates in error never printed the success URL for any
name. -/
theorem no_partial_success (sdk : Sdk) (a s b : Option String)
    (argv : List String) :
    ((runScript sdk a s b argv).2 = none →
      ∃ p lf rn rest, argv = p :: lf :: rn :: rest
        ∧ (∃ r, (sdk.putFile (sdk.uploadToken (a.getD "") (s.getD "")
              (b.getD "") rn 3600) rn lf).1 = some r
            ∧ r.key = rn ∧ r.hash = sdk.etag lf)
        ∧ ((runScript sdk a s b argv).1).getLast? = some (Event.printUrl rn))
    ∧ ((runScript sdk a s b argv).2 ≠ none →
        ∀ rn, Event.printUrl rn ∉ (runScript sdk a s b argv).1) := by
  by_cases hcred : (truthy a && truthy s && truthy b) = true
  · rcases hargv : argv with _ | ⟨p, _ | ⟨lf, _ | ⟨rn, rest⟩⟩⟩
    · refine ⟨fun h => absurd h ?_, fun _ rn => ?_⟩ <;>
        · unfold runScript
          rw [hcred]
          simp
    · refine ⟨fun h => absurd h ?_, fun _ rn => ?_⟩ <;>
        · unfold runScript
          rw [hcred]
          simp
    · refine ⟨fun h => absurd h ?_, fun _ rn => ?_⟩ <;>
        · unfold runScript
          rw [hcred]
          simp
    · rw [runScript_cons_eq sdk a s b p lf rn rest hcred]
      rcases hu : upload sdk (a.getD "") (s.getD "") (b.getD "") lf rn 3600
          with ⟨tr, err⟩
      cases err with
      | none =>
          constructor
          · intro _
            refine ⟨p, lf, rn, rest, rfl, ?_, ?_⟩
            · have hok := (upload_ok_iff sdk (a.getD "") (s.getD "")
                  (b.getD "") lf rn 3600).1 (by rw [hu])
              exact hok
            · exact List.getLast?_concat _
          · intro h
            simp at h
      | some e =>
          constructor
          · intro h
            simp at h
          · intro _ u
            have := upload_no_printUrl sdk (a.getD "") (s.getD "")
                (b.getD "") lf rn 3600 u
            rw [hu] at this
            exact this
  · have hfalse : (truthy a && truthy s && truthy b) = false :=
      Bool.eq_false_iff.2 hcred
    have hrun : runScript sdk a s b argv = ([], some PyError.assertionError) := by
      unfold runScript
      rw [hfalse]
      simp
    rw [hrun]
    exact ⟨fun h => by simp at h, fun _ rn => by simp⟩

/-- witness for C6: a concrete clean run satisfies both checks and ends with
the URL print, and a concrete failing run (SDK returns a wrong key) never
prints a URL. -/
theorem no_partial_success_witness :
    (∃ p lf rn rest, (["u", "f", "r"] : List String) = p :: lf :: rn :: rest
      ∧ (∃ r, (sdkStub.putFile (sdkStub.uploadToken "ak" "sk" "bkt" rn 3600)
            rn lf).1 = some r ∧ r.key = rn ∧ r.hash = sdkStub.etag lf)
      ∧ ((runScript sdkStub (some "ak") (some "sk") (some "bkt")
          ["u", "f", "r"]).1).getLast? = some (Event.printUrl rn))
    ∧ Event.printUrl "r" ∉ (runScript sdkBadKey (some "ak") (some "sk")
        (some "bkt") ["u", "f", "r"]).1 :=
  ⟨(no_partial_success sdkStub (some "ak") (some "sk") (some "bkt")
      ["u", "f", "r"]).1 (by decide),
   (no_partial_success sdkBadKey (some "ak") (some "sk") (some "bkt")
      ["u", "f", "r"]).2 (by decide) "r"⟩

/-- C7: a CLI invocation with zero or one positional arguments (that is,
`sys.argv` of length at most two, program name included) terminates with a
nonzero exit status and performs no network call: neither the token
issuance nor the upload primitive is ever invoked. -/
theorem too_few_arguments (sdk : Sdk) (a s b : Option String)
    (argv : List String) (h : argv.length ≤ 2) :
    exitCode (runScript sdk a s b argv) ≠ 0
    ∧ networkCalls (runScript sdk a s b argv).1 = 0 := by
  by_cases hcred : (truthy a && truthy s && truthy b) = true
  · rcases argv with _ | ⟨p, _ | ⟨x, _ | ⟨y, rest⟩⟩⟩
    · have hrun : runScript sdk a s b [] = ([], some PyError.indexError) := by
        unfold runScript
        rw [hcred]
        simp
      rw [hrun]
      exact ⟨by simp [exitCode], rfl⟩
    · have hrun : runScript sdk a s b [p] = ([], some PyError.indexError) := by
        unfold runScript
        rw [hcred]
        simp
      rw [hrun]
      exact ⟨by simp [exitCode], rfl⟩
    · have hrun : runScript sdk a s b [p, x] = ([], some PyError.indexError) := by
        unfold runScript
        rw [hcred]
        simp
      rw [hrun]
      exact ⟨by simp [exitCode], rfl⟩
    · simp at h
  · have hfalse : (truthy a && truthy s && truthy b) = false :=
      Bool.eq_false_iff.2 hcred
    have hrun : runScript sdk a s b argv = ([], some PyError.assertionError) := by
      unfold runScript
      rw [hfalse]
      simp
    rw [hrun]
    exact ⟨by simp [exitCode], rfl⟩

/-- witness for C7: with one positional argument and valid credentials, the
run exits nonzero after zero network calls. -/
theorem too_few_arguments_witness :
    exitCode (runScript sdkStub (some "ak") (some "sk") (some "bkt")
        ["upload-qiniu.py", "video.mp4"]) ≠ 0
    ∧ networkCalls (runScript sdkStub (some "ak") (some "sk") (some "bkt")
        ["upload-qiniu.py", "video.mp4"]).1 = 0 :=
  too_few_arguments sdkStub (some "ak") (some "sk") (some "bkt")
    ["upload-qiniu.py", "video.mp4"] (by decide)

/-- C10: the two postcondition checks are ordered.  If the returned key
differs from `remote_name`, the call fails on the key assertion and the
local etag of `local_file` is never computed: no `etagCall` event occurs in
the trace. -/
theorem key_check_precedes_hash_check (sdk : Sdk) (ak sk bucket lf rn : String)
    (ttl : Nat) (r : UploadRet)
    (hput : (sdk.putFile (sdk.uploadToken ak sk bucket rn ttl) rn lf).1 = some r)
    (hkey : r.key ≠ rn) :
    (upload sdk ak sk bucket lf rn ttl).2 = some PyError.assertionError
    ∧ ∀ f, Event.etagCall f ∉ (upload sdk ak sk bucket lf rn ttl).1 := by
  rw [upload_badkey_eq sdk ak sk bucket lf rn ttl r hput hkey]
  exact ⟨rfl, fun f => by simp⟩

/-- witness for C10: with the wrong-key stub the call dies on the key
assertion and its trace contains no etag computation. -/
theorem key_check_precedes_hash_check_witness :
    (upload sdkBadKey "ak" "sk" "bkt" "file" "obj" 3600).2
      = some PyError.assertionError
    ∧ ∀ f, Event.etagCall f ∉ (upload sdkBadKey "ak" "sk" "bkt" "file" "obj"
        3600).1 :=
  key_check_precedes_hash_check sdkBadKey "ak" "sk" "bkt" "file" "obj" 3600
    ⟨"other-key", "etag:file"⟩ (by decide) (by decide)

/-- helper: `Nat.digitChar` of a value below ten is a digit character. -/
lemma digitChar_isDigit (m : Nat) (h : m < 10) :
    (Nat.digitChar m).isDigit = true := by
  interval_cases m <;> decide

/-- C8 counterexample: at `(5, 0)` the helper raises `ZeroDivisionError`
and prints nothing, so it does not hold for every pair that one line is
printed. -/
theorem progress_handler_zero_total :
    progress_handler 5 0 = Except.error PyError.zeroDivisionError := rfl

/-- C8 (amended): for every pair with `totalBytes ≠ 0`, the helper prints
exactly one line `"<transferred>/<total> <percent>"` where the percent is
`transferred/total*100` rendered with exactly two decimal digits. -/
theorem progress_handler_nonzero_total (p t : Nat) (h : t ≠ 0) :
    progress_handler p t
      = Except.ok (toString p ++ "/" ++ toString t ++ " "
          ++ fmt2 (((p : Rat) / (t : Rat)) * 100))
    ∧ ∃ ip d1 d0, fmt2 (((p : Rat) / (t : Rat)) * 100)
        = ip ++ "." ++ String.mk [d1, d0]
        ∧ d1.isDigit = true ∧ d0.isDigit = true := by
  constructor
  · simp [progress_handler, h]
  · refine ⟨toString
        ((roundHalfEven ((((p : Rat) / (t : Rat)) * 100) * 100)).toNat / 100),
      Nat.digitChar
        ((roundHalfEven ((((p : Rat) / (t : Rat)) * 100) * 100)).toNat / 10 % 10),
      Nat.digitChar
        ((roundHalfEven ((((p : Rat) / (t : Rat)) * 100) * 100)).toNat % 10),
      rfl, digitChar_isDigit _ ?_, digitChar_isDigit _ ?_⟩
    · exact Nat.mod_lt _ (by norm_num)
    · exact Nat.mod_lt _ (by norm_num)

/-- witness for the amended C8: at `(1, 3)` the helper prints
`1/3 33.33`. -/
theorem progress_handler_nonzero_total_witness :
    progress_handler 1 3 = Except.ok "1/3 33.33" := by
  have h := (progress_handler_nonzero_total 1 3 (by decide)).1
  rw [h]
  have h100 : ((((1 : Nat) : Rat) / ((3 : Nat) : Rat)) * 100) * 100
      = ((10000 : Int) : Rat) / ((3 : Nat) : Rat) := by
    push_cast
    ring
  have hfl : ⌊((((1 : Nat) : Rat) / ((3 : Nat) : Rat)) * 100) * 100⌋
      = (3333 : Int) := by
    rw [h100, Rat.floor_intCast_div_natCast]
    decide
  have hrhe : roundHalfEven (((((1 : Nat) : Rat) / ((3 : Nat) : Rat)) * 100)
      * 100) = 3333 := by
    simp only [roundHalfEven]
    rw [hfl, h100]
    rw [if_pos (by push_cast; norm_num)]
  have hfmt : fmt2 (((1 : Nat) : Rat) / ((3 : Nat) : Rat) * 100) = "33.33" := by
    simp only [fmt2]
    rw [hrhe]
    decide
  rw [hfmt]
  rfl

/-- C9: the percentage computation in `progress_handler` is unguarded:
for every `bytesTransferred`, calling it with `totalBytes = 0` raises
`ZeroDivisionError` instead of printing a line. -/
theorem progress_handler_division_by_zero (p : Nat) :
    progress_handler p 0 = Except.error PyError.zeroDivisionError := rfl

end UploadQiniu
